import Mathlib

/-!
Shallow embedding of `blogicum/blog/views.py` (a Django view layer for a
blogging application).  The data model (Post, Category, Comment, User) is
carried by plain structures holding exactly the fields the view code reads;
foreign keys that the code dereferences through `select_related` joins
(`post.category`, `post.author`, `comment.author`) are stored inline, while
the comment-to-post key (set from a primary key lookup) is stored as the
post id.  Querysets become Lean lists, `timezone.now()` becomes an explicit
`now : Nat` parameter, `Http404` and redirects become explicit result
constructors, and each Django class-based view becomes a function following
its `dispatch` / `get_queryset` / `get_object` / `form_valid` /
`get_success_url` chain in method-resolution order.
-/

namespace Blogicum

/-- Modelled from the spec: the user model (`django.contrib.auth.models.User`)
is not part of this repository; the spec lists username and identity. -/
structure User where
  id : Nat
  username : String
deriving DecidableEq, Repr

/-- Modelled from the spec: `blog/models.py` is not under `src/`; the spec
gives Category the fields name, slug, published flag (only slug and the
published flag are read by the view code). -/
structure Category where
  slug : String
  is_published : Bool
deriving DecidableEq, Repr

/-- Modelled from the spec: `blog/models.py` is not under `src/`; the spec
gives Post a publish date/time, author reference, category reference and
published flag.  Only the fields the view code reads are carried. -/
structure Post where
  id : Nat
  author : User
  category : Category
  is_published : Bool
  pub_date : Nat
deriving DecidableEq, Repr

/-- Modelled from the spec: `blog/models.py` is not under `src/`; the spec
gives Comment a body text, author reference and post reference. -/
structure Comment where
  id : Nat
  author : User
  post_id : Nat
  text : String
deriving DecidableEq, Repr

/-- The database state the views query and mutate. -/
structure Db where
  posts : List Post
  categories : List Category
  comments : List Comment
  users : List User
deriving DecidableEq, Repr

/-- The viewer identity of a request: `none` is `AnonymousUser`, which is
never equal to any post/comment author (a `User` row). -/
abbrev Viewer := Option User

/-- Targets of `redirect` / `reverse` calls in the views. -/
inductive Url where
  | postDetail (post_id : Nat)
  | profile (username : String)
  | login
deriving DecidableEq, Repr

/-- Error responses.  The code only ever raises `Http404`; `forbidden`
models Django's distinct `PermissionDenied` (HTTP 403), which no view
raises, so that "not found rather than permission error" is statable. -/
inductive HttpError where
  | notFound (msg : String)
  | forbidden
deriving DecidableEq, Repr

/-- Outcome of a mutating view, alongside the (possibly updated) `Db`. -/
inductive Outcome where
  | notFound
  | redirect (url : Url)
  | success (url : Url)
deriving DecidableEq, Repr

/-- `MAX_POSTS = 10` (views.py line 16), the `paginate_by` page size. -/
def MAX_POSTS : Nat := 10

/-- `Count('comments')`: the number of comments whose post key is `p`. -/
def comment_count (db : Db) (p : Post) : Nat :=
  (db.comments.filter (fun c => c.post_id == p.id)).length

/-- An element of a listing queryset: the post, plus the `comment_count`
attribute when the view's `annotate(comment_count=Count('comments'))` added
one (`none` when the view did not annotate). -/
structure FeedEntry where
  post : Post
  comment_count : Option Nat
deriving DecidableEq, Repr

/-- One insertion step of sorting by descending `pub_date`
(`order_by('-pub_date')`). -/
def insertByDateDesc (e : FeedEntry) : List FeedEntry → List FeedEntry
  | [] => [e]
  | f :: fs =>
    if e.post.pub_date ≤ f.post.pub_date then f :: insertByDateDesc e fs
    else e :: f :: fs

/-- `order_by('-pub_date')`: sort a queryset newest-first. -/
def orderByPubDateDesc (l : List FeedEntry) : List FeedEntry :=
  l.foldr insertByDateDesc []

/-- `PostListView.get_queryset` (views.py lines 45-52): the home feed.
Filters `is_published & category__is_published & pub_date <= now`,
annotates a comment count, orders newest-first.  No viewer dependence. -/
def PostListView_get_queryset (db : Db) (now : Nat) : List FeedEntry :=
  orderByPubDateDesc
    (((db.posts.filter (fun p =>
        p.is_published
        && p.category.is_published
        && decide (p.pub_date ≤ now))).map
      (fun p => { post := p, comment_count := some (comment_count db p) })))

/-- `PostDetailView.get_object` (views.py lines 67-74): fetch the post by
primary key (404 when absent), then raise `Http404` when the viewer is not
the author and any of the three visibility conditions fails. -/
def PostDetailView_get_object (db : Db) (viewer : Viewer) (post_id : Nat)
    (now : Nat) : Except HttpError Post :=
  match db.posts.find? (fun p => p.id == post_id) with
  | none => .error (.notFound "No Post matches the given query.")
  | some post =>
    if (viewer != some post.author)
        && ((!post.category.is_published)
            || (!post.is_published)
            || decide (post.pub_date > now)) then
      .error (.notFound "Пост не доступен")
    else
      .ok post

/-- Modelled from the spec: `blog/forms.py` (`PostForm`) is not under
`src/`; per the spec the form carries the post's content fields but never
its author (the author is set by the view).  Only the fields the claims
read are carried. -/
structure PostFormData where
  category : Category
  is_published : Bool
  pub_date : Nat
deriving DecidableEq, Repr

/-- `form.save()` on a bound `PostForm` for an existing post: replace the
form-managed fields, keep id and author. -/
def applyPostForm (d : PostFormData) (p : Post) : Post :=
  { p with category := d.category, is_published := d.is_published,
           pub_date := d.pub_date }

/-- `PostCreateView` (views.py lines 77-90): `LoginRequiredMixin` first
(anonymous viewers are redirected to login), then `form_valid` sets
`form.instance.author = self.request.user` and saves a new post (`new_id`
is the primary key the database assigns), and `get_success_url` is the
profile page of `self.request.user.username`. -/
def PostCreateView_run (db : Db) (viewer : Viewer) (d : PostFormData)
    (new_id : Nat) : Db × Outcome :=
  match viewer with
  | none => (db, .redirect .login)
  | some u =>
    ({ db with posts := db.posts ++
        [{ id := new_id, author := u, category := d.category,
           is_published := d.is_published, pub_date := d.pub_date }] },
     .success (.profile u.username))

/-- `PostUpdateView = PostFormMixin + UpdateView` (views.py lines 19-32,
93-96).  There is no `LoginRequiredMixin` in this chain:
`PostFormMixin.dispatch` runs first, does `get_object_or_404(Post,
pk=post_id)`, and when `post.author != request.user` (true in particular
for every anonymous viewer) redirects to `blog:post_detail` with
`post_id`.  Otherwise the update runs and `get_success_url` is the post
detail page of `post_id`. -/
def PostUpdateView_run (db : Db) (viewer : Viewer) (post_id : Nat)
    (d : PostFormData) : Db × Outcome :=
  match db.posts.find? (fun p => p.id == post_id) with
  | none => (db, .notFound)
  | some post =>
    if some post.author != viewer then
      (db, .redirect (.postDetail post_id))
    else
      ({ db with posts := db.posts.map (fun p =>
          if p.id == post_id then applyPostForm d p else p) },
       .success (.postDetail post_id))

/-- `PostDeleteView = PostFormMixin + DeleteView` (views.py lines 19-32,
99-102): same ownership guard as the update view; on success the post row
is deleted and `get_success_url` is the profile of
`self.request.user.username` (equal to the post author's username, since
the guard just established `post.author == request.user`). -/
def PostDeleteView_run (db : Db) (viewer : Viewer) (post_id : Nat) :
    Db × Outcome :=
  match db.posts.find? (fun p => p.id == post_id) with
  | none => (db, .notFound)
  | some post =>
    if some post.author != viewer then
      (db, .redirect (.postDetail post_id))
    else
      ({ db with posts := db.posts.filter (fun p => !(p.id == post_id)) },
       .success (.profile post.author.username))

/-- `ProfileListView.get_queryset` and `get_context_data` (views.py lines
120-148): 404 when no user has the requested username; filter the posts to
that author, annotate a comment count, order newest-first; when the viewer
is not the profile owner additionally filter by the visibility rule.  The
context exposes the profile user (`get_object`). -/
def ProfileListView_get (db : Db) (viewer : Viewer) (username : String)
    (now : Nat) : Except HttpError (List FeedEntry × User) :=
  match db.users.find? (fun u => u.username == username) with
  | none => .error (.notFound "No User matches the given query.")
  | some profile =>
    let query_set := orderByPubDateDesc
      ((db.posts.filter (fun p => p.author == profile)).map
        (fun p => { post := p, comment_count := some (comment_count db p) }))
    let query_set :=
      if viewer != some profile then
        query_set.filter (fun e =>
          e.post.is_published
          && decide (e.post.pub_date ≤ now)
          && e.post.category.is_published)
      else query_set
    .ok (query_set, profile)

/-- `CommentCreateView` (views.py lines 168-182): `LoginRequiredMixin`
first, then `form_valid` sets `author = request.user` and
`post = get_object_or_404(Post, pk=post_id)` — existence is the only check
on the target post, with no visibility condition — and `get_success_url`
is the post detail page of `post_id`. -/
def CommentCreateView_run (db : Db) (viewer : Viewer) (post_id : Nat)
    (text : String) (new_id : Nat) : Db × Outcome :=
  match viewer with
  | none => (db, .redirect .login)
  | some u =>
    match db.posts.find? (fun p => p.id == post_id) with
    | none => (db, .notFound)
    | some post =>
      ({ db with comments := db.comments ++
          [{ id := new_id, author := u, post_id := post.id, text := text }] },
       .success (.postDetail post_id))

/-- `CommentMixin.dispatch` (views.py lines 159-165), shared by the comment
update and delete views.  It is the first `dispatch` in method-resolution
order, so it runs before `LoginRequiredMixin`: it fetches the comment by id
(404 when absent) and, when `coment.author != request.user` (true in
particular for every anonymous viewer), redirects to `blog:post_detail`
passing `comment_id` as the `post_id` argument.  `none` means the guard
passed and the wrapped view proceeds. -/
def CommentMixin_dispatch_guard (db : Db) (viewer : Viewer)
    (comment_id : Nat) : Option Outcome :=
  match db.comments.find? (fun c => c.id == comment_id) with
  | none => some .notFound
  | some coment =>
    if some coment.author != viewer then
      some (.redirect (.postDetail comment_id))
    else
      none

/-- `CommentMixin.get_success_url` (views.py lines 156-157): the post
detail URL built with `comment_id` as its argument. -/
def CommentMixin_get_success_url (comment_id : Nat) : Url :=
  .postDetail comment_id

/-- `CommentUpdateView = CommentMixin + UpdateView` (views.py lines
185-186): guard, then save the comment form (new body text), then redirect
to `CommentMixin.get_success_url`. -/
def CommentUpdateView_run (db : Db) (viewer : Viewer) (comment_id : Nat)
    (text : String) : Db × Outcome :=
  match CommentMixin_dispatch_guard db viewer comment_id with
  | some out => (db, out)
  | none =>
    ({ db with comments := db.comments.map (fun c =>
        if c.id == comment_id then { c with text := text } else c) },
     .success (CommentMixin_get_success_url comment_id))

/-- `CommentDeleteView = CommentMixin + DeleteView` (views.py lines
189-190): guard, then delete the comment row, then redirect to
`CommentMixin.get_success_url`. -/
def CommentDeleteView_run (db : Db) (viewer : Viewer) (comment_id : Nat) :
    Db × Outcome :=
  match CommentMixin_dispatch_guard db viewer comment_id with
  | some out => (db, out)
  | none =>
    ({ db with comments := db.comments.filter (fun c => !(c.id == comment_id)) },
     .success (CommentMixin_get_success_url comment_id))

/-- `PostCategoryView.get_queryset` (views.py lines 199-211):
`get_object_or_404(Category, slug=category_slug, is_published=True)` (404
when no such row), then filter the posts by `category__slug & is_published
& category__is_published & pub_date <= now` and order newest-first.  No
`annotate(comment_count=...)` is applied here. -/
def PostCategoryView_get_queryset (db : Db) (category_slug : String)
    (now : Nat) : Except HttpError (List FeedEntry) :=
  match db.categories.find? (fun c =>
      c.slug == category_slug && c.is_published) with
  | none => .error (.notFound "No Category matches the given query.")
  | some _ =>
    .ok (orderByPubDateDesc
      ((db.posts.filter (fun p =>
          p.category.slug == category_slug
          && p.is_published
          && p.category.is_published
          && decide (p.pub_date ≤ now))).map
        (fun p => { post := p, comment_count := none })))

/-! ### Concrete fixtures used by witnesses and counterexamples -/

def alice : User := ⟨1, "alice"⟩

def bob : User := ⟨2, "bob"⟩

def newsCat : Category := ⟨"news", true⟩

def secretCat : Category := ⟨"secret", false⟩

/-- Published, past-dated post in a published category, by alice. -/
def newsPost : Post := ⟨1, alice, newsCat, true, 3⟩

/-- Unpublished post in a published category, by alice. -/
def draftPost : Post := ⟨2, alice, newsCat, false, 3⟩

/-- Published, future-dated (at `now = 10`) post, by alice. -/
def futurePost : Post := ⟨3, alice, newsCat, true, 100⟩

/-- Unpublished, future-dated post in an unpublished category, by bob. -/
def secretPost : Post := ⟨4, bob, secretCat, false, 1000⟩

/-- A comment by alice with id 5, belonging to the post with id 2. -/
def guardComment : Comment := ⟨5, alice, 2, "c"⟩

/-- Database holding `draftPost` (id 2) and `guardComment` (id 5, on post
2): comment id and post id differ, which separates a redirect built from
the comment id from one built from the post id. -/
def guardDb : Db := ⟨[draftPost], [newsCat], [guardComment], [alice, bob]⟩

/-- Database where `newsPost` (id 1) carries three comments (ids 11-13). -/
def countDb : Db :=
  ⟨[newsPost], [newsCat],
   [⟨11, bob, 1, "a"⟩, ⟨12, bob, 1, "b"⟩, ⟨13, bob, 1, "d"⟩],
   [alice, bob]⟩

/-! ### Helper lemmas -/

theorem mem_insertByDateDesc (a e : FeedEntry) (l : List FeedEntry) :
    a ∈ insertByDateDesc e l ↔ a = e ∨ a ∈ l := by
  induction l with
  | nil => simp [insertByDateDesc]
  | cons f fs ih =>
    simp only [insertByDateDesc]
    split
    · simp only [List.mem_cons, ih]
      tauto
    · simp only [List.mem_cons]

theorem mem_orderByPubDateDesc (a : FeedEntry) (l : List FeedEntry) :
    a ∈ orderByPubDateDesc l ↔ a ∈ l := by
  induction l with
  | nil => simp [orderByPubDateDesc]
  | cons f fs ih =>
    simp only [orderByPubDateDesc, List.foldr] at ih ⊢
    rw [mem_insertByDateDesc]
    simp [ih]

theorem exists_post_mem_annotated (p : Post) (l : List Post)
    (f : Post → Option Nat) :
    (∃ e ∈ l.map (fun q => ({ post := q, comment_count := f q } : FeedEntry)),
        e.post = p) ↔ p ∈ l := by
  constructor
  · rintro ⟨e, he, hep⟩
    rw [List.mem_map] at he
    obtain ⟨q, hq, rfl⟩ := he
    have hqp : q = p := hep
    subst hqp
    exact hq
  · intro hp
    exact ⟨{ post := p, comment_count := f p },
      List.mem_map.mpr ⟨p, hp, rfl⟩, rfl⟩

/-- Shape of the category listing on a successful category lookup. -/
theorem PostCategoryView_ok (db : Db) (category_slug : String) (now : Nat)
    (c : Category)
    (hf : db.categories.find? (fun c =>
        c.slug == category_slug && c.is_published) = some c) :
    PostCategoryView_get_queryset db category_slug now
      = .ok (orderByPubDateDesc
          ((db.posts.filter (fun p =>
              p.category.slug == category_slug
              && p.is_published
              && p.category.is_published
              && decide (p.pub_date ≤ now))).map
            (fun p => { post := p, comment_count := none }))) := by
  unfold PostCategoryView_get_queryset
  rw [hf]

/-- Shape of the profile listing on a successful user lookup. -/
theorem ProfileListView_ok (db : Db) (viewer : Viewer) (username : String)
    (now : Nat) (profile : User)
    (hf : db.users.find? (fun u => u.username == username) = some profile) :
    ProfileListView_get db viewer username now
      = .ok
          (if viewer != some profile then
            (orderByPubDateDesc
              ((db.posts.filter (fun p => p.author == profile)).map
                (fun p => { post := p,
                            comment_count := some (comment_count db p) }))).filter
              (fun e =>
                e.post.is_published
                && decide (e.post.pub_date ≤ now)
                && e.post.category.is_published)
          else
            orderByPubDateDesc
              ((db.posts.filter (fun p => p.author == profile)).map
                (fun p => { post := p,
                            comment_count := some (comment_count db p) })),
           profile) := by
  unfold ProfileListView_get
  rw [hf]

/-! ### Claim theorems -/

/-- C1: for every post P and every viewer who is anonymous or is not P's
author, P appears in the home-feed listing if and only if P's published
flag is true, P's category's published flag is true, and P's publish
date/time is at most the current time.  (`PostListView.get_queryset` is in
fact viewer-independent, so the visibility rule applies uniformly.) -/
theorem C1_home_feed_visibility (db : Db) (now : Nat) (viewer : Viewer)
    (p : Post) (_hview : viewer = none ∨ viewer ≠ some p.author)
    (hp : p ∈ db.posts) :
    (∃ e ∈ PostListView_get_queryset db now, e.post = p)
      ↔ (p.is_published = true ∧ p.category.is_published = true
          ∧ p.pub_date ≤ now) := by
  unfold PostListView_get_queryset
  simp only [mem_orderByPubDateDesc]
  rw [exists_post_mem_annotated p _ (fun q => some (comment_count db q))]
  rw [List.mem_filter]
  simp [hp, Bool.and_eq_true, decide_eq_true_eq, and_assoc]

/-- Witness for C1 at a concrete database: for the anonymous viewer the
visible post appears in the home feed and the draft post does not. -/
theorem C1_home_feed_visibility_witness :
    (∃ e ∈ PostListView_get_queryset ⟨[newsPost, draftPost], [newsCat], [], [alice]⟩ 10,
        e.post = newsPost)
    ∧ ¬(∃ e ∈ PostListView_get_queryset ⟨[newsPost, draftPost], [newsCat], [], [alice]⟩ 10,
        e.post = draftPost) := by
  constructor
  · exact (C1_home_feed_visibility ⟨[newsPost, draftPost], [newsCat], [], [alice]⟩
      10 none newsPost (Or.inl rfl) (by decide)).mpr (by decide)
  · intro h
    exact absurd ((C1_home_feed_visibility ⟨[newsPost, draftPost], [newsCat], [], [alice]⟩
      10 none draftPost (Or.inl rfl) (by decide)).mp h) (by decide)

/-- C2: the post detail operation returns the post to its author regardless
of the published flag, category-published flag or publish date; for every
other viewer (anonymous included) it returns the post exactly when all
three visibility conditions hold, and when any fails it raises a not-found
error — never `forbidden`. -/
theorem C2_detail_not_found_gating (db : Db) (viewer : Viewer)
    (post_id now : Nat) (p : Post)
    (hfind : db.posts.find? (fun q => q.id == post_id) = some p) :
    (viewer = some p.author →
        PostDetailView_get_object db viewer post_id now = .ok p)
    ∧ (viewer ≠ some p.author →
        ((p.is_published = true ∧ p.category.is_published = true
            ∧ p.pub_date ≤ now) →
          PostDetailView_get_object db viewer post_id now = .ok p)
        ∧ (¬(p.is_published = true ∧ p.category.is_published = true
            ∧ p.pub_date ≤ now) →
          ∃ msg, PostDetailView_get_object db viewer post_id now
            = .error (.notFound msg))) := by
  unfold PostDetailView_get_object
  rw [hfind]
  refine ⟨?_, ?_⟩
  · intro hv
    subst hv
    simp
  · intro hv
    refine ⟨?_, ?_⟩
    · rintro ⟨h1, h2, h3⟩
      simp [h1, h2, Nat.not_lt.mpr h3]
    · intro hns
      have hb : (viewer != some p.author) = true := bne_iff_ne.mpr hv
      have hrest : ((!p.category.is_published) || (!p.is_published)
          || decide (p.pub_date > now)) = true := by
        rcases not_and_or.mp hns with h1 | h23
        · simp [Bool.eq_false_iff.mpr h1]
        · rcases not_and_or.mp h23 with h2 | h3
          · simp [Bool.eq_false_iff.mpr h2]
          · simp [Nat.lt_of_not_le h3]
      exact ⟨"Пост не доступен", by simp [hb, hrest]⟩

/-- Witness for C2 at a concrete database: the author sees their own
hidden draft; the anonymous viewer gets a not-found error for it. -/
theorem C2_detail_not_found_gating_witness :
    PostDetailView_get_object ⟨[draftPost], [newsCat], [], [alice]⟩
        (some alice) 2 10 = .ok draftPost
    ∧ ∃ msg, PostDetailView_get_object ⟨[draftPost], [newsCat], [], [alice]⟩
        none 2 10 = .error (.notFound msg) := by
  refine ⟨(C2_detail_not_found_gating ⟨[draftPost], [newsCat], [], [alice]⟩
      (some alice) 2 10 draftPost rfl).1 rfl, ?_⟩
  exact ((C2_detail_not_found_gating ⟨[draftPost], [newsCat], [], [alice]⟩
      none 2 10 draftPost rfl).2 (by decide)).2 (by decide)

/-- C3, evaluated at the failing input: requester bob is not the author of
comment 5, which belongs to post 2.  The edit and the delete are refused
and the database is unchanged as the claim says, but the redirect goes to
the post-detail URL built from the comment's id 5, not from the owning
post's id 2 as the claim requires. -/
theorem C3_comment_guard_redirect_uses_comment_id :
    CommentUpdateView_run guardDb (some bob) 5 "x"
        = (guardDb, .redirect (.postDetail 5))
    ∧ CommentDeleteView_run guardDb (some bob) 5
        = (guardDb, .redirect (.postDetail 5))
    ∧ guardComment.post_id = 2
    ∧ (5 : Nat) ≠ 2 := by
  exact ⟨rfl, rfl, rfl, by decide⟩

/-- C4, evaluated at the failing input: alice successfully edits her own
comment 5, which belongs to post 2; the success redirect is the post-detail
URL built from the comment's id 5, not from the owning post's id 2 as the
claim requires. -/
theorem C4_comment_success_url_uses_comment_id :
    CommentUpdateView_run guardDb (some alice) 5 "new"
        = ({ guardDb with comments := [⟨5, alice, 2, "new"⟩] },
           .success (.postDetail 5))
    ∧ guardComment.post_id = 2
    ∧ (5 : Nat) ≠ 2 := by
  exact ⟨rfl, rfl, by decide⟩

/-- Counterexample to C5 as stated: an anonymous attempt to edit the
existing post 2 (and the existing comment 5) is redirected to a post-detail
URL, not to the login flow. -/
theorem C5_counterexample :
    PostUpdateView_run guardDb none 2 ⟨newsCat, true, 0⟩
        = (guardDb, .redirect (.postDetail 2))
    ∧ (Outcome.redirect (.postDetail 2)) ≠ .redirect .login
    ∧ CommentUpdateView_run guardDb none 5 "x"
        = (guardDb, .redirect (.postDetail 5))
    ∧ (Outcome.redirect (.postDetail 5)) ≠ .redirect .login := by
  exact ⟨rfl, by decide, rfl, by decide⟩

/-- C5 as amended: anonymous creation of a post or comment is redirected
to the login flow; an anonymous edit or delete of a post or comment is not
sent to login — it yields not-found when the resource does not exist and
otherwise a redirect to the post-detail URL (built from the post id for
posts and from the comment id for comments) — and in every case the
database is unchanged. -/
theorem C5_anonymous_mutations (db : Db)
    (post_id comment_id new_id : Nat) (d : PostFormData) (text : String) :
    PostCreateView_run db none d new_id = (db, .redirect .login)
    ∧ CommentCreateView_run db none post_id text new_id
        = (db, .redirect .login)
    ∧ (PostUpdateView_run db none post_id d = (db, .notFound)
        ∨ PostUpdateView_run db none post_id d
            = (db, .redirect (.postDetail post_id)))
    ∧ (PostDeleteView_run db none post_id = (db, .notFound)
        ∨ PostDeleteView_run db none post_id
            = (db, .redirect (.postDetail post_id)))
    ∧ (CommentUpdateView_run db none comment_id text = (db, .notFound)
        ∨ CommentUpdateView_run db none comment_id text
            = (db, .redirect (.postDetail comment_id)))
    ∧ (CommentDeleteView_run db none comment_id = (db, .notFound)
        ∨ CommentDeleteView_run db none comment_id
            = (db, .redirect (.postDetail comment_id))) := by
  refine ⟨rfl, rfl, ?_, ?_, ?_, ?_⟩
  · unfold PostUpdateView_run
    cases hf : db.posts.find? (fun p => p.id == post_id) with
    | none => exact Or.inl rfl
    | some post => exact Or.inr (by simp)
  · unfold PostDeleteView_run
    cases hf : db.posts.find? (fun p => p.id == post_id) with
    | none => exact Or.inl rfl
    | some post => exact Or.inr (by simp)
  · unfold CommentUpdateView_run CommentMixin_dispatch_guard
    cases hf : db.comments.find? (fun c => c.id == comment_id) with
    | none => exact Or.inl rfl
    | some coment => exact Or.inr (by simp)
  · unfold CommentDeleteView_run CommentMixin_dispatch_guard
    cases hf : db.comments.find? (fun c => c.id == comment_id) with
    | none => exact Or.inl rfl
    | some coment => exact Or.inr (by simp)

/-- Counterexample to C6 as stated: in `countDb` the post has exactly 3
comments, yet the category listing lists it with no comment count attached
(`comment_count = none`), because `PostCategoryView.get_queryset` never
annotates one. -/
theorem C6_counterexample :
    comment_count countDb newsPost = 3
    ∧ PostCategoryView_get_queryset countDb "news" 10
        = .ok [{ post := newsPost, comment_count := none }] := by
  exact ⟨rfl, rfl⟩

/-- C6 as amended: the home feed and the profile feed attach to every
listed post a comment count equal to the number of comments of that post
(so in particular 3 for a post with exactly 3 comments), while the
category feed attaches no comment count at all. -/
theorem C6_comment_counts (db : Db) (now : Nat) (viewer : Viewer)
    (username category_slug : String) :
    (∀ e ∈ PostListView_get_queryset db now,
        e.comment_count = some (comment_count db e.post))
    ∧ (∀ l u, ProfileListView_get db viewer username now = .ok (l, u) →
        ∀ e ∈ l, e.comment_count = some (comment_count db e.post))
    ∧ (∀ l, PostCategoryView_get_queryset db category_slug now = .ok l →
        ∀ e ∈ l, e.comment_count = none) := by
  refine ⟨?_, ?_, ?_⟩
  · intro e he
    unfold PostListView_get_queryset at he
    rw [mem_orderByPubDateDesc, List.mem_map] at he
    obtain ⟨q, hq, rfl⟩ := he
    rfl
  · intro l u h e he
    cases hf : db.users.find? (fun v => v.username == username) with
    | none =>
      unfold ProfileListView_get at h
      rw [hf] at h
      exact absurd h (by simp)
    | some profile =>
      rw [ProfileListView_ok db viewer username now profile hf] at h
      rw [Except.ok.injEq, Prod.mk.injEq] at h
      obtain ⟨hl, -⟩ := h
      subst hl
      split at he
      · rw [List.mem_filter] at he
        obtain ⟨he, -⟩ := he
        rw [mem_orderByPubDateDesc, List.mem_map] at he
        obtain ⟨q, hq, rfl⟩ := he
        rfl
      · rw [mem_orderByPubDateDesc, List.mem_map] at he
        obtain ⟨q, hq, rfl⟩ := he
        rfl
  · intro l h e he
    cases hf : db.categories.find? (fun c =>
        c.slug == category_slug && c.is_published) with
    | none =>
      unfold PostCategoryView_get_queryset at h
      rw [hf] at h
      exact absurd h (by simp)
    | some c =>
      rw [PostCategoryView_ok db category_slug now c hf] at h
      rw [Except.ok.injEq] at h
      subst h
      rw [mem_orderByPubDateDesc, List.mem_map] at he
      obtain ⟨q, hq, rfl⟩ := he
      rfl

/-- Witness for C6 as amended, at `countDb`: the home feed attaches the
count 3 to the post with three comments, and the category feed attaches
none. -/
theorem C6_comment_counts_witness :
    (∀ e ∈ PostListView_get_queryset countDb 10,
        e.comment_count = some (comment_count countDb e.post))
    ∧ ({ post := newsPost, comment_count := none } : FeedEntry).comment_count
        = none := by
  refine ⟨(C6_comment_counts countDb 10 none "alice" "news").1, ?_⟩
  exact (C6_comment_counts countDb 10 none "alice" "news").2.2
    [{ post := newsPost, comment_count := none }] rfl
    { post := newsPost, comment_count := none } (by simp)

/-- C7: requesting the category listing for a slug all of whose categories
are unpublished yields a not-found error; on success the listing contains
exactly the posts of that category satisfying the standard visibility rule
(published, category published, publish date not in the future). -/
theorem C7_category_listing (db : Db) (category_slug : String) (now : Nat) :
    ((∀ c ∈ db.categories, c.slug = category_slug → c.is_published = false) →
        ∃ msg, PostCategoryView_get_queryset db category_slug now
          = .error (.notFound msg))
    ∧ (∀ l, PostCategoryView_get_queryset db category_slug now = .ok l →
        ∀ p ∈ db.posts,
          ((∃ e ∈ l, e.post = p) ↔
            (p.category.slug = category_slug ∧ p.is_published = true
              ∧ p.category.is_published = true ∧ p.pub_date ≤ now))) := by
  constructor
  · intro hall
    have hnone : db.categories.find? (fun c =>
        c.slug == category_slug && c.is_published) = none := by
      rw [List.find?_eq_none]
      intro c hc
      simp only [Bool.and_eq_true, beq_iff_eq, not_and]
      intro hslug
      rw [hall c hc hslug]
      simp
    unfold PostCategoryView_get_queryset
    rw [hnone]
    exact ⟨_, rfl⟩
  · intro l h p hp
    cases hf : db.categories.find? (fun c =>
        c.slug == category_slug && c.is_published) with
    | none =>
      unfold PostCategoryView_get_queryset at h
      rw [hf] at h
      exact absurd h (by simp)
    | some c =>
      rw [PostCategoryView_ok db category_slug now c hf] at h
      rw [Except.ok.injEq] at h
      subst h
      simp only [mem_orderByPubDateDesc]
      rw [exists_post_mem_annotated p _ (fun _ => none)]
      rw [List.mem_filter]
      simp [hp, Bool.and_eq_true, decide_eq_true_eq, and_assoc]

/-- Witness for C7 at a concrete database: the unpublished category's slug
yields not-found; the published one lists its visible post and omits the
future-dated one. -/
theorem C7_category_listing_witness :
    (∃ msg, PostCategoryView_get_queryset
        ⟨[newsPost, futurePost], [newsCat, secretCat], [], [alice]⟩ "secret" 10
        = .error (.notFound msg))
    ∧ (∃ e ∈ [({ post := newsPost, comment_count := none } : FeedEntry)],
        e.post = newsPost) := by
  constructor
  · exact (C7_category_listing
      ⟨[newsPost, futurePost], [newsCat, secretCat], [], [alice]⟩ "secret" 10).1
      (by decide)
  · exact ((C7_category_listing
      ⟨[newsPost, futurePost], [newsCat, secretCat], [], [alice]⟩ "news" 10).2
      [{ post := newsPost, comment_count := none }] rfl newsPost
      (by decide)).mpr (by decide)

/-- C8: the profile listing of user U contains all of U's posts when the
viewer is U, and only U's posts satisfying the visibility rule for any
other viewer (anonymous included); in both cases the profile user is
exposed in the rendering context (the second component of the result). -/
theorem C8_profile_listing (db : Db) (viewer : Viewer) (username : String)
    (now : Nat) (u : User)
    (hu : db.users.find? (fun v => v.username == username) = some u) :
    ∃ l, ProfileListView_get db viewer username now = .ok (l, u)
      ∧ (viewer = some u →
          ∀ p ∈ db.posts, ((∃ e ∈ l, e.post = p) ↔ p.author = u))
      ∧ (viewer ≠ some u →
          ∀ p ∈ db.posts, ((∃ e ∈ l, e.post = p) ↔
            (p.author = u ∧ p.is_published = true ∧ p.pub_date ≤ now
              ∧ p.category.is_published = true))) := by
  refine ⟨_, ProfileListView_ok db viewer username now u hu, ?_, ?_⟩
  · intro hv p hp
    subst hv
    simp only [bne_self_eq_false, Bool.false_eq_true, if_false]
    simp only [mem_orderByPubDateDesc]
    rw [exists_post_mem_annotated p _ (fun q => some (comment_count db q))]
    rw [List.mem_filter]
    simp [hp]
  · intro hv p hp
    rw [if_pos (bne_iff_ne.mpr hv)]
    constructor
    · rintro ⟨e, he, hep⟩
      rw [List.mem_filter] at he
      obtain ⟨heS, hvis⟩ := he
      rw [mem_orderByPubDateDesc, List.mem_map] at heS
      obtain ⟨q, hq, rfl⟩ := heS
      have hqp : q = p := hep
      subst hqp
      rw [List.mem_filter] at hq
      obtain ⟨-, hauth⟩ := hq
      simp only [Bool.and_eq_true, decide_eq_true_eq] at hvis
      exact ⟨beq_iff_eq.mp hauth, hvis.1.1, hvis.1.2, hvis.2⟩
    · rintro ⟨h1, h2, h3, h4⟩
      refine ⟨{ post := p, comment_count := some (comment_count db p) },
        ?_, rfl⟩
      rw [List.mem_filter]
      constructor
      · rw [mem_orderByPubDateDesc, List.mem_map]
        exact ⟨p, List.mem_filter.mpr ⟨hp, by simp [h1]⟩, rfl⟩
      · simp only [Bool.and_eq_true, decide_eq_true_eq]
        exact ⟨⟨h2, h3⟩, h4⟩

/-- Witness for C8 at a concrete database: alice sees her own draft in her
profile listing, bob does not, and the profile user is exposed in the
context in both cases. -/
theorem C8_profile_listing_witness :
    (∃ l, ProfileListView_get ⟨[draftPost], [newsCat], [], [alice, bob]⟩
        (some alice) "alice" 10 = .ok (l, alice)
      ∧ (∃ e ∈ l, e.post = draftPost))
    ∧ (∃ l, ProfileListView_get ⟨[draftPost], [newsCat], [], [alice, bob]⟩
        (some bob) "alice" 10 = .ok (l, alice)
      ∧ ¬(∃ e ∈ l, e.post = draftPost)) := by
  constructor
  · obtain ⟨l, hl, hself, -⟩ := C8_profile_listing
      ⟨[draftPost], [newsCat], [], [alice, bob]⟩ (some alice) "alice" 10
      alice rfl
    exact ⟨l, hl, (hself rfl draftPost (by decide)).mpr (by decide)⟩
  · obtain ⟨l, hl, -, hother⟩ := C8_profile_listing
      ⟨[draftPost], [newsCat], [], [alice, bob]⟩ (some bob) "alice" 10
      alice rfl
    refine ⟨l, hl, fun h => absurd
      ((hother (by decide) draftPost (by decide)).mp h) (by decide)⟩

/-- C9: a post creation by an authenticated user U appends a post whose
author is U and redirects to U's own profile page. -/
theorem C9_post_create_author_and_redirect (db : Db) (u : User)
    (d : PostFormData) (new_id : Nat) :
    ∃ p, PostCreateView_run db (some u) d new_id
        = ({ db with posts := db.posts ++ [p] },
           .success (.profile u.username))
      ∧ p.author = u
      ∧ p.id = new_id := by
  exact ⟨_, rfl, rfl, rfl⟩

/-- C10: comment creation checks only the target post's existence — no
visibility condition.  For any authenticated user U and any post found by
id (however unpublished, future-dated or in an unpublished category, and
whoever its author), a valid submission appends a comment authored by U
referencing that post, leaves the posts unchanged, and redirects to the
post's detail page. -/
theorem C10_comment_create_no_visibility_check (db : Db) (u : User)
    (post_id new_id : Nat) (text : String) (p : Post)
    (hfind : db.posts.find? (fun q => q.id == post_id) = some p) :
    CommentCreateView_run db (some u) post_id text new_id
      = ({ db with comments := db.comments ++
            [{ id := new_id, author := u, post_id := p.id, text := text }] },
         .success (.postDetail post_id)) := by
  unfold CommentCreateView_run
  rw [hfind]

/-- Witness for C10: alice comments on bob's unpublished, future-dated
post in an unpublished category; the comment is stored and the redirect
goes to that post's detail page. -/
theorem C10_comment_create_no_visibility_check_witness :
    CommentCreateView_run ⟨[secretPost], [secretCat], [], [alice, bob]⟩
        (some alice) 4 "hi" 9
      = (⟨[secretPost], [secretCat],
          [{ id := 9, author := alice, post_id := 4, text := "hi" }],
          [alice, bob]⟩,
         .success (.postDetail 4)) := by
  exact C10_comment_create_no_visibility_check
    ⟨[secretPost], [secretCat], [], [alice, bob]⟩ alice 4 9 "hi" secretPost rfl

end Blogicum
